import Mathlib

/-!
Verification of the storymock constraint-builder layer.

Shallow embedding of `src/faker/type.ts` (the `Construct` base class),
`src/faker/constructs/range.ts` (`RangeConstruct`) and
`src/faker/constructs/even-odd.ts` (`EvenOddConstruct`), together with a
spec-modelled Resolver (the resolution engine is described in the spec
but not yet implemented in the repository).

Modelling of state: in the TypeScript source a `Construct` receives a
caller-supplied `setter` whose callback mutates a single shared
constraint map, and every chained method returns `this`.  We embed a
method as a function from the builder and the current shared constraint
map to the triple (returned builder, shared constraint map after the
call, thrown error if any).  `throw` is embedded as returning `some`
error message; statements after a throw are not executed, so the state
component of an erroring call is the map at the moment of the throw.
-/

/-- Embeds the TS rules object `Partial<{min: number; max: number}>` bound
to a `RangeConstruct` (second type parameter of `Construct`). -/
structure RangeRules where
  min : Option Int := none
  max : Option Int := none
deriving DecidableEq, Repr

/-- Embeds the accumulated constraint map
`Partial<{min: number; max: number}>` that the caller-supplied setter
mutates (first type parameter of `Construct`). -/
structure RangeConstraints where
  min : Option Int := none
  max : Option Int := none
deriving DecidableEq, Repr

/-- Embeds the `Construct` base-class constructor line
`this.rules = rules ?? {}`: a missing `rules` argument yields the empty
rule map. -/
def initRules (rules : Option RangeRules) : RangeRules :=
  rules.getD {}

/-- Embeds `class RangeConstruct extends Construct<...>`.  The `setter`
field of the TS object is the channel to the shared constraint map,
which we pass explicitly to each method; the only own data of the
builder is its rule map. -/
structure RangeConstruct where
  rules : RangeRules
deriving DecidableEq, Repr

/-- Embeds `RangeConstruct.min`: throw if the fixed rule min exists and
`min < this.rules.min`; otherwise merge `{min}` through the setter and
return `this`. -/
def RangeConstruct.min (self : RangeConstruct) (constraints : RangeConstraints)
    (v : Int) : RangeConstruct × RangeConstraints × Option String :=
  match self.rules.min with
  | some m =>
      if v < m then
        (self, constraints,
          some ("Minimum value must be greater than or equal to " ++ toString m))
      else
        (self, { constraints with min := some v }, none)
  | none => (self, { constraints with min := some v }, none)

/-- Embeds `RangeConstruct.max`: throw if the fixed rule max exists and
`max > this.rules.max`; otherwise merge `{max}` through the setter and
return `this`. -/
def RangeConstruct.max (self : RangeConstruct) (constraints : RangeConstraints)
    (v : Int) : RangeConstruct × RangeConstraints × Option String :=
  match self.rules.max with
  | some m =>
      if m < v then
        (self, constraints,
          some ("Maximum value must be less than or equal to " ++ toString m))
      else
        (self, { constraints with max := some v }, none)
  | none => (self, { constraints with max := some v }, none)

/-- Embeds `RangeConstruct.between`: `this.min(min); this.max(max);
return this;` — a throw in the first call propagates and skips the
second. -/
def RangeConstruct.between (self : RangeConstruct) (constraints : RangeConstraints)
    (a b : Int) : RangeConstruct × RangeConstraints × Option String :=
  match self.min constraints a with
  | (s1, c1, some e) => (s1, c1, some e)
  | (s1, c1, none) => s1.max c1 b

/-- The user-side chain `builder.min(a).max(b)`: evaluate `min`, and if
it did not throw, evaluate `max` on its result. -/
def minThenMax (self : RangeConstruct) (constraints : RangeConstraints)
    (a b : Int) : RangeConstruct × RangeConstraints × Option String :=
  match self.min constraints a with
  | (s1, c1, some e) => (s1, c1, some e)
  | (s1, c1, none) => s1.max c1 b

/-- The guard of the throw branch of `RangeConstruct.min`:
`this.rules.min != null && min < this.rules.min`.  It consults only the
`min` rule bound. -/
def minViolation (r : RangeRules) (v : Int) : Bool :=
  match r.min with
  | some m => decide (v < m)
  | none => false

/-- The guard of the throw branch of `RangeConstruct.max`:
`this.rules.max != null && max > this.rules.max`.  It consults only the
`max` rule bound. -/
def maxViolation (r : RangeRules) (v : Int) : Bool :=
  match r.max with
  | some m => decide (m < v)
  | none => false

/-- Embeds the accumulated constraint map `Partial<{even: boolean}>` of
`EvenOddConstruct`. -/
structure EvenOddConstraints where
  even : Option Bool := none
deriving DecidableEq, Repr

/-- Embeds `class EvenOddConstruct extends Construct<{even: boolean}>`:
its rules type parameter defaults to `{}`, so the builder carries no own
data beyond the setter channel. -/
structure EvenOddConstruct where
deriving DecidableEq, Repr

/-- Embeds `EvenOddConstruct.even`: merge `{even := true}` through the
setter and return `this`.  The method body contains no throw. -/
def EvenOddConstruct.even (self : EvenOddConstruct) (c : EvenOddConstraints) :
    EvenOddConstruct × EvenOddConstraints :=
  (self, { c with even := some true })

/-- Embeds `EvenOddConstruct.odd`: merge `{even := false}` through the
setter and return `this`.  The method body contains no throw. -/
def EvenOddConstruct.odd (self : EvenOddConstruct) (c : EvenOddConstraints) :
    EvenOddConstruct × EvenOddConstraints :=
  (self, { c with even := some false })

/-- One call of a finite `.even()` / `.odd()` call sequence. -/
inductive EOCall where
  | evenCall
  | oddCall
deriving DecidableEq, Repr

/-- Dispatch one call to the corresponding `EvenOddConstruct` method,
keeping the shared constraint map it leaves behind. -/
def EvenOddConstruct.apply (self : EvenOddConstruct) (c : EvenOddConstraints)
    (k : EOCall) : EvenOddConstraints :=
  match k with
  | .evenCall => (self.even c).2
  | .oddCall => (self.odd c).2

/-- Run a finite sequence of `.even()` / `.odd()` calls on the shared
constraint map, left to right. -/
def EvenOddConstruct.run (self : EvenOddConstruct) (c : EvenOddConstraints)
    (calls : List EOCall) : EvenOddConstraints :=
  calls.foldl (fun acc k => self.apply acc k) c

/-- Modelled from the spec: the Resolver of §4.3 and one field's
Generator contract of §2 are not implemented under `src/` (the
repository holds only the Construct scaffolding), so we model a schema
field as a name plus a generator that is a pure function of the
randomness-source state, as §5 requires ("Resolver runs are pure
functions of (Schema, overrides, randomness-source state)"). -/
structure FieldSpec where
  name : String
  gen : Nat → Int × Nat

/-- Modelled from the spec: one resolution step per field in order
(§4.3): an overridden field takes its override value and leaves the
randomness state untouched; otherwise the field's generator is invoked,
threading the randomness state.  The relation relates the schema, the
override set and the incoming randomness state to the resolved record
and the outgoing randomness state. -/
inductive Resolves :
    List FieldSpec → List (String × Int) → Nat → List (String × Int) → Nat → Prop where
  | nil : ∀ o g, Resolves [] o g [] g
  | overridden : ∀ f rest o g v out g₁,
      o.lookup f.name = some v →
      Resolves rest o g out g₁ →
      Resolves (f :: rest) o g ((f.name, v) :: out) g₁
  | generated : ∀ f rest o g v g₁ out g₂,
      o.lookup f.name = none →
      f.gen g = (v, g₁) →
      Resolves rest o g₁ out g₂ →
      Resolves (f :: rest) o g ((f.name, v) :: out) g₂

/-- A one-field schema used to exhibit a concrete resolution run. -/
def demoSchema : List FieldSpec :=
  [{ name := "a", gen := fun g => ((g : Int) + 1, g * 2) }]

/- Helper lemmas characterising the embedded methods. -/

theorem min_fst (self : RangeConstruct) (c : RangeConstraints) (v : Int) :
    (self.min c v).1 = self := by
  unfold RangeConstruct.min
  rcases self.rules.min with _ | m
  · rfl
  · dsimp only
    split <;> rfl

theorem max_fst (self : RangeConstruct) (c : RangeConstraints) (v : Int) :
    (self.max c v).1 = self := by
  unfold RangeConstruct.max
  rcases self.rules.max with _ | m
  · rfl
  · dsimp only
    split <;> rfl

theorem min_state (self : RangeConstruct) (c : RangeConstraints) (v : Int) :
    (self.min c v).2.1 =
      cond (minViolation self.rules v) c { c with min := some v } := by
  unfold RangeConstruct.min minViolation
  rcases self.rules.min with _ | m
  · rfl
  · dsimp only
    by_cases h : v < m <;> simp [h]

theorem max_state (self : RangeConstruct) (c : RangeConstraints) (v : Int) :
    (self.max c v).2.1 =
      cond (maxViolation self.rules v) c { c with max := some v } := by
  unfold RangeConstruct.max maxViolation
  rcases self.rules.max with _ | m
  · rfl
  · dsimp only
    by_cases h : m < v <;> simp [h]

theorem min_err (self : RangeConstruct) (c : RangeConstraints) (v : Int) :
    ((self.min c v).2.2).isSome = minViolation self.rules v := by
  unfold RangeConstruct.min minViolation
  rcases self.rules.min with _ | m
  · rfl
  · dsimp only
    by_cases h : v < m <;> simp [h]

theorem max_err (self : RangeConstruct) (c : RangeConstraints) (v : Int) :
    ((self.max c v).2.2).isSome = maxViolation self.rules v := by
  unfold RangeConstruct.max maxViolation
  rcases self.rules.max with _ | m
  · rfl
  · dsimp only
    by_cases h : m < v <;> simp [h]

theorem min_ok (self : RangeConstruct) (c : RangeConstraints) (v : Int)
    (h : minViolation self.rules v = false) :
    self.min c v = (self, { c with min := some v }, none) := by
  unfold RangeConstruct.min
  unfold minViolation at h
  rcases hm : self.rules.min with _ | m
  · rfl
  · rw [hm] at h
    simp only [decide_eq_false_iff_not] at h
    simp [h]

theorem max_ok (self : RangeConstruct) (c : RangeConstraints) (v : Int)
    (h : maxViolation self.rules v = false) :
    self.max c v = (self, { c with max := some v }, none) := by
  unfold RangeConstruct.max
  unfold maxViolation at h
  rcases hm : self.rules.max with _ | m
  · rfl
  · rw [hm] at h
    simp only [decide_eq_false_iff_not] at h
    simp [h]

theorem max_throw (self : RangeConstruct) (c : RangeConstraints) (v m : Int)
    (hm : self.rules.max = some m) (hv : m < v) :
    self.max c v =
      (self, c, some ("Maximum value must be less than or equal to " ++ toString m)) := by
  unfold RangeConstruct.max
  simp [hm, hv]

theorem between_fst (self : RangeConstruct) (c : RangeConstraints) (a b : Int) :
    (self.between c a b).1 = self := by
  unfold RangeConstruct.between
  rcases h : self.min c a with ⟨s1, c1, e⟩
  have hs : s1 = self := by
    have h1 := min_fst self c a
    rw [h] at h1
    exact h1
  rcases e with _ | e
  · dsimp only
    rw [hs]
    exact max_fst self c1 b
  · exact hs

/-- C1: with fixed Rule `{min := 10, max := 50}` and an empty constraint
map, `.min 5` throws the rule-violation error, while `.min 20` followed
by `.max 40` succeeds and leaves the constraint map
`{min := 20, max := 40}`. -/
theorem c1_range_rule_example :
    ((RangeConstruct.mk { min := some 10, max := some 50 }).min {} 5).2.2 =
      some "Minimum value must be greater than or equal to 10" ∧
    ((RangeConstruct.mk { min := some 10, max := some 50 }).min {} 5).2.1 =
      ({} : RangeConstraints) ∧
    ((RangeConstruct.mk { min := some 10, max := some 50 }).min {} 20).2.2 = none ∧
    (((RangeConstruct.mk { min := some 10, max := some 50 }).min {} 20).1.max
        ((RangeConstruct.mk { min := some 10, max := some 50 }).min {} 20).2.1 40).2.2 =
      none ∧
    (((RangeConstruct.mk { min := some 10, max := some 50 }).min {} 20).1.max
        ((RangeConstruct.mk { min := some 10, max := some 50 }).min {} 20).2.1 40).2.1 =
      { min := some 20, max := some 40 } := by
  refine ⟨rfl, rfl, rfl, rfl, rfl⟩

/-- C2 counterexample: a builder whose fixed Rule is `{max := 5}` accepts
`.min 10`: no error is thrown and `{min := 10}` is merged, because `min`
consults only the `min` rule bound. -/
theorem c2_counterexample :
    ((RangeConstruct.mk { min := none, max := some 5 }).min {} 10).2.2 = none ∧
    ((RangeConstruct.mk { min := none, max := some 5 }).min {} 10).2.1 =
      { min := some 10, max := none } := by
  exact ⟨rfl, rfl⟩

/-- C2 amended: `.min v` fails exactly when `v` is below the fixed rule
min, and `.max v` exactly when `v` is above the fixed rule max — each
call checks only the same-named rule bound, never the opposite one; when
the check passes the constraint is merged, otherwise the map is left
unchanged. -/
theorem c2_same_named_bound_only (self : RangeConstruct) (c : RangeConstraints)
    (v : Int) :
    ((self.min c v).2.2).isSome = minViolation self.rules v ∧
    (self.min c v).2.1 =
      cond (minViolation self.rules v) c { c with min := some v } ∧
    ((self.max c v).2.2).isSome = maxViolation self.rules v ∧
    (self.max c v).2.1 =
      cond (maxViolation self.rules v) c { c with max := some v } :=
  ⟨min_err self c v, min_state self c v, max_err self c v, max_state self c v⟩

/-- C3 counterexample: with no rules and an empty shared constraint map,
`.min 20` returns the very same builder instance and changes the shared
constraint map from `{}` to `{min := 20}`, so reusing the original
builder afterwards observes the post-call constraints, not its pre-call
ones. -/
theorem c3_counterexample :
    ((RangeConstruct.mk {}).min {} 20).1 = RangeConstruct.mk {} ∧
    ((RangeConstruct.mk {}).min {} 20).2.1 ≠ ({} : RangeConstraints) ∧
    ((RangeConstruct.mk {}).min {} 20).2.1 = { min := some 20, max := none } := by
  refine ⟨rfl, by decide, rfl⟩

/-- C3 amended: chained calls are not functional — each of `min`, `max`
and `between` returns the same builder instance (`return this`), and a
successful call updates the one shared constraint map in place through
the setter, so the original builder observes the merged (post-call)
constraints. -/
theorem c3_shared_mutation (self : RangeConstruct) (c : RangeConstraints)
    (v a b : Int) :
    (self.min c v).1 = self ∧
    (self.max c v).1 = self ∧
    (self.between c a b).1 = self ∧
    (self.min c v).2.1 =
      cond (minViolation self.rules v) c { c with min := some v } ∧
    (self.max c v).2.1 =
      cond (maxViolation self.rules v) c { c with max := some v } :=
  ⟨min_fst self c v, max_fst self c v, between_fst self c a b,
    min_state self c v, max_state self c v⟩

/-- C4: `.between a b` is observably equivalent — same returned builder,
same shared constraint map, same error — to the chain `.min a` then
`.max b` in that order. -/
theorem c4_between_is_min_then_max (self : RangeConstruct)
    (c : RangeConstraints) (a b : Int) :
    self.between c a b = minThenMax self c a b := rfl

/-- C5 counterexample: with no rules, `.between 20 10` (min argument
greater than max argument) does not fail: it succeeds and leaves the
constraint map `{min := 20, max := 10}`.  No `min ≤ max` consistency
check exists in the code. -/
theorem c5_counterexample :
    ((RangeConstruct.mk {}).between {} 20 10).2.2 = none ∧
    ((RangeConstruct.mk {}).between {} 20 10).2.1 =
      { min := some 20, max := some 10 } := by
  exact ⟨rfl, rfl⟩

/-- C5 amended: `.between a b` never fails merely because `a > b`; it
fails on the max step exactly when `b` exceeds the fixed rule max (the
min step having succeeded), and then the min step has already merged
`{min := a}` into the shared map and the error cites the fixed max
bound. -/
theorem c5_between_fails_only_on_rule_max (self : RangeConstruct)
    (c : RangeConstraints) (a b m : Int)
    (hmin : minViolation self.rules a = false)
    (hmax : self.rules.max = some m) (hb : m < b) :
    self.between c a b =
      (self, { c with min := some a },
        some ("Maximum value must be less than or equal to " ++ toString m)) := by
  unfold RangeConstruct.between
  rw [min_ok self c a hmin]
  exact max_throw self { c with min := some a } b m hmax hb

/-- C5 amended, witness: Rule `{max := 5}`, `.between 1 10` fails on the
max step with `{min := 1}` already merged. -/
theorem c5_witness :
    minViolation (RangeConstruct.mk { min := none, max := some 5 }).rules 1 = false ∧
    (RangeConstruct.mk { min := none, max := some 5 }).rules.max = some 5 ∧
    (5 : Int) < 10 ∧
    (RangeConstruct.mk { min := none, max := some 5 }).between {} 1 10 =
      (RangeConstruct.mk { min := none, max := some 5 },
        { min := some 1, max := none },
        some "Maximum value must be less than or equal to 5") := by
  refine ⟨by decide, rfl, by decide, ?_⟩
  exact c5_between_fails_only_on_rule_max _ _ 1 10 5 (by decide) rfl (by decide)

/-- C6: for every builder, constraint map and argument, if `.min v`
raises then the shared constraint map is unchanged by that call, and
independently if `.max v` raises then the shared constraint map is
unchanged by that call — the throw precedes the setter invocation, so a
failed call performs no partial merge. -/
theorem c6_failed_call_leaves_constraints (self : RangeConstruct)
    (c : RangeConstraints) (v : Int) :
    (((self.min c v).2.2).isSome = true → (self.min c v).2.1 = c) ∧
    (((self.max c v).2.2).isSome = true → (self.max c v).2.1 = c) := by
  constructor
  · intro hmin
    have h1 : minViolation self.rules v = true := by
      rw [← min_err self c v]
      exact hmin
    rw [min_state self c v, h1]
    rfl
  · intro hmax
    have h2 : maxViolation self.rules v = true := by
      rw [← max_err self c v]
      exact hmax
    rw [max_state self c v, h2]
    rfl

/-- C6 witness: on a builder whose Rule fixes only `min := 10`, `.min 5`
throws and the empty constraint map stays empty; on a builder whose Rule
fixes only `max := 50`, `.max 60` throws and the empty constraint map
stays empty. -/
theorem c6_witness :
    (((RangeConstruct.mk { min := some 10, max := none }).min {} 5).2.2).isSome = true ∧
    ((RangeConstruct.mk { min := some 10, max := none }).min {} 5).2.1 =
      ({} : RangeConstraints) ∧
    (((RangeConstruct.mk { min := none, max := some 50 }).max {} 60).2.2).isSome = true ∧
    ((RangeConstruct.mk { min := none, max := some 50 }).max {} 60).2.1 =
      ({} : RangeConstraints) := by
  refine ⟨by decide, ?_, by decide, ?_⟩
  · exact (c6_failed_call_leaves_constraints
      (RangeConstruct.mk { min := some 10, max := none }) {} 5).1 (by decide)
  · exact (c6_failed_call_leaves_constraints
      (RangeConstruct.mk { min := none, max := some 50 }) {} 60).2 (by decide)

/-- C9: rule-bound checks are non-strict: `.min v` with `v` exactly the
fixed rule min succeeds and sets the min constraint to `v`, and `.max v`
with `v` exactly the fixed rule max succeeds and sets the max constraint
to `v`. -/
theorem c9_boundary_values_accepted (v : Int) (other : Option Int)
    (c : RangeConstraints) :
    (RangeConstruct.mk { min := some v, max := other }).min c v =
      (RangeConstruct.mk { min := some v, max := other },
        { c with min := some v }, none) ∧
    (RangeConstruct.mk { min := other, max := some v }).max c v =
      (RangeConstruct.mk { min := other, max := some v },
        { c with max := some v }, none) := by
  constructor
  · exact min_ok _ c v (by simp [minViolation])
  · exact max_ok _ c v (by simp [maxViolation])

/-- C10: the `Construct` constructor defaults a missing rules argument
to the empty rule map (`rules ?? {}`), and a `RangeConstruct` built that
way never throws from `.min`, `.max` or `.between`, for any
arguments. -/
theorem c10_no_rules_never_fails (c : RangeConstraints) (v a b : Int) :
    initRules none = { min := none, max := none } ∧
    ((RangeConstruct.mk (initRules none)).min c v).2.2 = none ∧
    ((RangeConstruct.mk (initRules none)).max c v).2.2 = none ∧
    ((RangeConstruct.mk (initRules none)).between c a b).2.2 = none := by
  refine ⟨rfl, rfl, rfl, ?_⟩
  unfold RangeConstruct.between
  rw [min_ok (RangeConstruct.mk (initRules none)) c a rfl]
  show ((RangeConstruct.mk (initRules none)).max { c with min := some a } b).2.2 = none
  rw [max_ok (RangeConstruct.mk (initRules none)) { c with min := some a } b rfl]

/-- C7: resolution is deterministic — two resolution runs from the same
schema, the same override set and the same randomness-source state
produce the same resolved record and the same final randomness state. -/
theorem c7_resolve_deterministic (s : List FieldSpec) (o : List (String × Int))
    (g : Nat) (r₁ r₂ : List (String × Int)) (g₁ g₂ : Nat)
    (h₁ : Resolves s o g r₁ g₁) (h₂ : Resolves s o g r₂ g₂) :
    r₁ = r₂ ∧ g₁ = g₂ := by
  induction h₁ generalizing r₂ g₂ with
  | nil o g =>
      cases h₂
      exact ⟨rfl, rfl⟩
  | overridden f rest o g v out gA hl hr ih =>
      cases h₂ with
      | overridden _ _ _ _ v' out' gB hl' hr' =>
          rw [hl] at hl'
          injection hl' with hv
          obtain ⟨ho, hg⟩ := ih _ _ hr'
          rw [hv, ho, hg]
          exact ⟨rfl, rfl⟩
      | generated _ _ _ _ v' gm out' gB hl' hgen hr' =>
          rw [hl] at hl'
          exact absurd hl' (by simp)
  | generated f rest o g v gm out gA hl hgen hr ih =>
      cases h₂ with
      | overridden _ _ _ _ v' out' gB hl' hr' =>
          rw [hl] at hl'
          exact absurd hl' (by simp)
      | generated _ _ _ _ v' gm' out' gB hl' hgen' hr' =>
          rw [hgen] at hgen'
          injection hgen' with hv hgm
          rw [← hgm] at hr'
          obtain ⟨ho, hg⟩ := ih _ _ hr'
          rw [hv, ho, hg]
          exact ⟨rfl, rfl⟩

/-- C7 witness: a concrete one-field resolution run, resolved twice,
yields the same record and randomness state. -/
theorem c7_witness :
    Resolves demoSchema [] 3 [("a", 4)] 6 ∧
    ([("a", (4 : Int))] = [("a", (4 : Int))] ∧ (6 : Nat) = 6) := by
  have hd : Resolves demoSchema [] 3 [("a", 4)] 6 :=
    Resolves.generated _ _ _ _ 4 6 _ _ rfl rfl (Resolves.nil _ _)
  exact ⟨hd, c7_resolve_deterministic demoSchema [] 3 _ _ _ _ hd hd⟩

/-- C8: no `.even()` / `.odd()` call can fail (the embedded methods are
total, mirroring throw-free method bodies), and after any nonempty call
sequence the accumulated `even` constraint is `true` exactly when the
last call was `.even()` — each call overwrites the previous setting. -/
theorem c8_last_call_wins (self : EvenOddConstruct) (c : EvenOddConstraints)
    (calls : List EOCall) (k : EOCall) (h : calls.getLast? = some k) :
    (self.run c calls).even = some (decide (k = EOCall.evenCall)) := by
  rcases List.eq_nil_or_concat calls with rfl | ⟨xs, x, rfl⟩
  · simp at h
  · rw [List.concat_eq_append, List.getLast?_concat] at h
    injection h with h
    rw [← h]
    unfold EvenOddConstruct.run
    rw [List.concat_eq_append, List.foldl_append]
    cases x <;> rfl

/-- C8 witness: the sequence `.odd()` then `.even()` ends with the
constraint `{even := true}`. -/
theorem c8_witness :
    ([EOCall.oddCall, EOCall.evenCall].getLast? = some EOCall.evenCall) ∧
    ((EvenOddConstruct.mk).run {} [EOCall.oddCall, EOCall.evenCall]).even =
      some (decide (EOCall.evenCall = EOCall.evenCall)) :=
  ⟨rfl, c8_last_call_wins EvenOddConstruct.mk {} _ EOCall.evenCall rfl⟩
